import Mathlib

/-!
Shallow embedding of the afterbuy-api catalog scraping/matching service,
with theorems checking its natural-language specification.

Sources embedded (paths relative to the repository root):
- `src/config/afterbuy.py` — settings (`parsing_per_page`).
- `src/parser/html_utils/search_util.py` — `SearchHtmlUtil.fetch_page_count`.
- `src/mapping/service.py` — `calculate_string_difference`,
  `_calculate_dto_pair_weighted_difference`, `MappingService.map_fabrics`,
  `MappingService.map_products`.
- `src/libs/http_client.py` — `HttpClient.html_request`, `HttpClient.json_request`.
- `src/parser/http_utils/login.py` — `LoginClient.check_login_status`,
  `LoginClient.get_session`.
- `src/parser/http_utils/product.py` — `ProductUtil.parse_main_data`.
- `src/parser/parser/product.py` — `ProductParserService.parse_products`.
- `src/parser/html_utils/product_util.py` — `ProductHtmlUtil.parse_item_html`,
  `ProductHtmlUtil._extract_properties_json`.

Python floats carrying the matcher weights/threshold are modelled as exact
rationals; Python exceptions are modelled by the `PyErr` inductive and
`Except`-returning functions; the external network and the external string
similarity library (`thefuzz.fuzz.ratio`) are parameters of the embedded
functions.
-/

namespace Afterbuy

/-- Python exception classes raised/caught by the embedded code
(`src/parser/exceptions.py`, `aiohttp`, `asyncio`, builtins).
`ParsingError` and `LoginFailedError` are distinct, unrelated classes. -/
inductive PyErr
  | parsingError (msg : String)
  | loginFailedError (msg : String)
  | clientError
  | timeoutError
  | runtimeError
  | otherError (msg : String)
  deriving DecidableEq, Repr

/-- `ProductDTO` / `ProductPreviewDTO` (`src/product/dto.py`): every field is
optional; `price` is a Python float, modelled as a rational. -/
structure ProductDTO where
  id : Option Int := none
  brand_id : Option Int := none
  fabric_id : Option Int := none
  url_id : Option Int := none
  collection : Option String := none
  product_num : Option String := none
  price : Option ℚ := none
  properties : Option String := none
  article : Option String := none
  pic_main : Option String := none
  pics : Option String := none
  category : Option String := none
  link : Option String := none
  ean : Option String := none
  html_description : Option String := none
  deriving DecidableEq, Repr

/-- `FabricDTO` (`src/fabric/dto.py`). -/
structure FabricDTO where
  id : Int
  name : String
  afterbuy_id : String
  brand_id : Int
  total_count : Int
  parsed_count : Int
  done : Bool
  deriving DecidableEq, Repr

/-- `CreateFabricMappingDTO` (`src/fabric_mapping/dto.py`): the coarse
(fabric-level) mapping pair recorded by `map_fabrics`. -/
structure CreateFabricMappingDTO where
  fabric_id_JV : Int
  fabric_id_XL : Int
  deriving DecidableEq, Repr

/-- `CreateProductsMappingDTO` (`src/product_mapping/dto.py`): the record-level
mapping created by `map_products`. -/
structure CreateProductsMappingDTO where
  fabric_mapping_id : Int
  xl_product_id : Option Int
  jv_product_id : Option Int
  deriving DecidableEq, Repr

/-- Python `str.strip()`: drop whitespace from both ends. -/
def pyStrip (s : String) : String :=
  ⟨((s.data.dropWhile Char.isWhitespace).reverse.dropWhile Char.isWhitespace).reverse⟩

/-- Python `str.lower()`: lowercase every character. -/
def pyLower (s : String) : String := ⟨s.data.map Char.toLower⟩

/-! ## Pagination (`SearchHtmlUtil.fetch_page_count`, search_util.py lines 52-89)

The HTML/XPath layer that locates the total-count text is external (lxml);
the embedding starts from the parsed non-negative `total_items` and mirrors
`offsets = [i * per_page for i in range(ceil(total_items / per_page))]`. -/

/-- `settings.parsing_per_page` (`src/config/afterbuy.py`), default 500. -/
def parsing_per_page : ℕ := 500

/-- `SearchHtmlUtil.fetch_page_count`, offsets computation: given the parsed
total item count, return `(offsets, total_items)` where
`offsets = [i * per_page for i in range(ceil(total_items / per_page))]`. -/
def fetch_page_count (total_items : ℕ) (per_page : ℕ) : List ℕ × ℕ :=
  ((List.range ⌈(total_items : ℚ) / (per_page : ℚ)⌉₊).map (fun i => i * per_page), total_items)

/-! ## Cross-catalog matcher (`src/mapping/service.py`) -/

/-- `calculate_string_difference` (mapping/service.py lines 51-77).
The external similarity routine `thefuzz.fuzz.ratio` (returning an integer
percentage) is a parameter: the function lowercases the `None`-defaulted
inputs, returns `0.0` outright when the normalized strings are equal, and
otherwise returns `1 - ratio/100`. -/
def calculate_string_difference (ratio : String → String → ℕ)
    (s1 s2 : Option String) : ℚ :=
  let str1 := pyLower (s1.getD "")
  let str2 := pyLower (s2.getD "")
  if str1 = str2 then 0
  else 1 - (ratio str1 str2 : ℚ) / 100

/-- The five matching fields of `ProductMatcherConfig.FIELD_WEIGHTS`
(mapping/service.py lines 37-43), in dict insertion order. -/
inductive MatchField
  | properties | pic_main | article | category | pics
  deriving DecidableEq, Repr

/-- `ProductMatcherConfig.MATCHING_FIELDS = list(FIELD_WEIGHTS.keys())`. -/
def MATCHING_FIELDS : List MatchField :=
  [.properties, .pic_main, .article, .category, .pics]

/-- `ProductMatcherConfig.FIELD_WEIGHTS` as exact rationals. -/
def FIELD_WEIGHTS : MatchField → ℚ
  | .properties => 40/100
  | .pic_main => 25/100
  | .article => 20/100
  | .category => 10/100
  | .pics => 5/100

/-- `getattr(dto, field_name, None)` for the five matching fields. -/
def fieldGet : MatchField → ProductDTO → Option String
  | .properties, d => d.properties
  | .pic_main, d => d.pic_main
  | .article, d => d.article
  | .category, d => d.category
  | .pics, d => d.pics

/-- `ProductMatcherConfig.MAX_DIFFERENCE_THRESHOLD = 0.4`. -/
def MAX_DIFFERENCE_THRESHOLD : ℚ := 4/10

/-- `_calculate_dto_pair_weighted_difference` (mapping/service.py lines
80-109): sum over the matching fields of the field weight times the
per-field string difference. -/
def calculate_dto_pair_weighted_difference (ratio : String → String → ℕ)
    (dto1 dto2 : ProductDTO) : ℚ :=
  MATCHING_FIELDS.foldl
    (fun total field =>
      total + calculate_string_difference ratio (fieldGet field dto1) (fieldGet field dto2)
                * FIELD_WEIGHTS field)
    0

/-- `MappingService.map_fabrics` (mapping/service.py lines 124-131): for each
A-side fabric crossed with each B-side fabric, record a coarse mapping pair
when the names agree after `strip().lower()` and both `total_count`s are
positive. -/
def map_fabrics (j_fabrics x_fabrics : List FabricDTO) : List CreateFabricMappingDTO :=
  j_fabrics.flatMap (fun fabric =>
    x_fabrics.filterMap (fun x_fabric =>
      if pyLower (pyStrip fabric.name) = pyLower (pyStrip x_fabric.name)
          ∧ 0 < fabric.total_count ∧ 0 < x_fabric.total_count then
        some ⟨fabric.id, x_fabric.id⟩
      else none))

/-- One step of the best-candidate scan inside `MappingService.map_products`
(mapping/service.py lines 150-158): the accumulator holds
`(best_target_dto, lowest_weighted_diff)`, starting from `(None, inf)`
(modelled as `(none, none)`); a candidate replaces it only when its
difference is strictly lower. -/
def bestStep (ratio : String → String → ℕ) (dto1 : ProductDTO)
    (acc : Option ProductDTO × Option ℚ) (dto2 : ProductDTO) :
    Option ProductDTO × Option ℚ :=
  let current_diff := calculate_dto_pair_weighted_difference ratio dto1 dto2
  match acc.2 with
  | none => (some dto2, some current_diff)
  | some lowest => if current_diff < lowest then (some dto2, some current_diff) else acc

/-- The inner `for dto2 in x_products` scan of `map_products`. -/
def findBest (ratio : String → String → ℕ) (dto1 : ProductDTO)
    (x_products : List ProductDTO) : Option ProductDTO × Option ℚ :=
  x_products.foldl (bestStep ratio dto1) (none, none)

/-- The per-A-record body of `map_products` (mapping/service.py lines
149-165): keep the strictly-best candidate and create a mapping iff a best
candidate exists and its difference is at most the threshold. -/
def matchFor (ratio : String → String → ℕ) (fabric_mapping_id : Int)
    (x_products : List ProductDTO) (dto1 : ProductDTO) :
    Option CreateProductsMappingDTO :=
  match findBest ratio dto1 x_products with
  | (some best, some lowest) =>
      if lowest ≤ MAX_DIFFERENCE_THRESHOLD then
        some ⟨fabric_mapping_id, best.id, dto1.id⟩
      else none
  | _ => none

/-- Phase 2 of `MappingService.map_products` for one coarse-mapped group
pair: the mappings created, one optional entry per A-side record in order. -/
def map_products_pair (ratio : String → String → ℕ) (fabric_mapping_id : Int)
    (j_products x_products : List ProductDTO) : List CreateProductsMappingDTO :=
  j_products.filterMap (matchFor ratio fabric_mapping_id x_products)

/-! ## Resilient session client (`HttpClient`, `src/libs/http_client.py`)

A request attempt either returns a response body or raises an exception;
`sessionClosed` records whether `self.session.closed` held when the
exception was caught.  The embedding is parametric in the infinite attempt
trace `att : ℕ → AttemptResult` (attempt `i` of the same request) and in
the `random.random()` jitter draws `jitter : ℕ → ℚ`; it returns the final
outcome together with the trace of observable client actions. -/

/-- Outcome of one underlying `session.request` attempt. -/
inductive AttemptResult
  | ok (body : String)
  | err (e : PyErr) (sessionClosed : Bool)
  deriving DecidableEq, Repr

/-- Observable side actions of `html_request`: session recreation and
backoff/cooldown sleeps (in seconds). -/
inductive ClientAction
  | recreate
  | sleep (secs : ℚ)
  deriving DecidableEq, Repr

/-- The exception classes caught by `html_request`'s retry loop:
`(ClientError, asyncio.TimeoutError, RuntimeError)`. -/
def retryableErr : PyErr → Bool
  | .clientError => true
  | .timeoutError => true
  | .runtimeError => true
  | _ => false

/-- `isinstance(e, RuntimeError) or (self.session and self.session.closed)`:
the condition under which the loop recreates the session before sleeping. -/
def recreateCond (e : PyErr) (sessionClosed : Bool) : Bool :=
  (e = .runtimeError) || sessionClosed

/-- An attempt result as the value `html_request`/`json_request` would
produce from it alone (return the body, or propagate the exception). -/
def attemptToExcept : AttemptResult → Except PyErr String
  | .ok body => .ok body
  | .err e _ => .error e

/-- `HttpClient.json_request` (http_client.py lines 25-28): one
`session.request` with no retry logic; any exception propagates. -/
def json_request (att : ℕ → AttemptResult) : Except PyErr String :=
  attemptToExcept (att 0)

/-- The `for attempt in range(5)` loop of `HttpClient.html_request`
(http_client.py lines 32-43).  `fuel` counts the remaining loop iterations
and `i` is the current `attempt` value; the result is `some r` when the
loop returned or propagated `r`, `none` when it fell through all
iterations, paired with the actions performed. -/
def html_request_loop (att : ℕ → AttemptResult) (jitter : ℕ → ℚ) :
    ℕ → ℕ → Option (Except PyErr String) × List ClientAction
  | 0, _ => (none, [])
  | fuel + 1, i =>
    match att i with
    | .ok body => (some (.ok body), [])
    | .err e closed =>
      if retryableErr e then
        let acts := (if recreateCond e closed then [ClientAction.recreate] else [])
          ++ [ClientAction.sleep (min 60 ((2 : ℚ) ^ i + jitter i))]
        let rest := html_request_loop att jitter fuel (i + 1)
        (rest.1, acts ++ rest.2)
      else (some (.error e), [])

/-- `HttpClient.html_request` (http_client.py lines 31-54): up to 5 attempts
with backoff `min(60, 2**attempt + random())`, recreating the session when
the error is a `RuntimeError` or the session is closed; after the loop is
exhausted, recreate the session, sleep `5 * 60` seconds, and make exactly
one final attempt whose failure propagates. -/
def html_request (att : ℕ → AttemptResult) (jitter : ℕ → ℚ) :
    Except PyErr String × List ClientAction :=
  match html_request_loop att jitter 5 0 with
  | (some r, acts) => (r, acts)
  | (none, acts) =>
    (attemptToExcept (att 5),
      acts ++ [ClientAction.recreate, ClientAction.sleep (5 * 60)])

/-- Whether an attempt outcome is a failure caught by `html_request`'s
retry loop. -/
def isRetryableFailure : AttemptResult → Bool
  | .ok _ => false
  | .err e _ => retryableErr e

/-- The actions `html_request`'s retry loop performs after attempt `i`
(empty when the attempt succeeded): an optional session recreation followed
by the backoff sleep `min(60, 2**attempt + random())`. -/
def attemptActs (att : ℕ → AttemptResult) (jitter : ℕ → ℚ) (i : ℕ) :
    List ClientAction :=
  match att i with
  | .ok _ => []
  | .err e closed =>
    (if recreateCond e closed then [ClientAction.recreate] else [])
      ++ [ClientAction.sleep (min 60 ((2 : ℚ) ^ i + jitter i))]

/-! ## Login verification (`LoginClient`, `src/parser/http_utils/login.py`) -/

/-- The known login-page title compared against in `check_login_status`. -/
def LOGIN_PAGE_TITLE : String := "Afterbuy - Benutzer-Login"

/-- `LoginClient.check_login_status` (login.py lines 233-254), parametric in
the outcome of fetching the listing page and extracting its title
(`fetch_title` raises `ParsingError` when no title is present, and
`html_request` errors bubble up): returns `True` iff the title is not the
login-page title. -/
def check_login_status (titleResult : Except PyErr String) : Except PyErr Bool :=
  match titleResult with
  | .error e => .error e
  | .ok page_title => .ok (page_title != LOGIN_PAGE_TITLE)

/-- The authenticated client handle returned by `get_session` (`self`). -/
structure LoginClientHandle where
  base_url : String
  deriving DecidableEq, Repr

/-- `LoginClient.get_session` (login.py lines 170-191), parametric in the
outcome of `self.login()`: returns `self` when login succeeded and raises
`LoginFailedError` when it returned `False`; exceptions from `login()`
bubble up. -/
def get_session (self : LoginClientHandle) (loginResult : Except PyErr Bool) :
    Except PyErr LoginClientHandle :=
  match loginResult with
  | .error e => .error e
  | .ok true => .ok self
  | .ok false => .error (.loginFailedError "Failed to complete login process.")

/-! ## Session-expiry retry (`ProductUtil.parse_main_data`,
`src/parser/http_utils/product.py` lines 99-142)

Parametric in: the outcomes of the first and second `html_request` fetches,
the result of `parse_item_html` as a function of the fetched content, and
the outcome of the `self.http_client.login()` call.  The result is the
returned/raised value together with the number of `login()` calls and the
number of `parse_item_html` calls made. -/

/-- Replay of `ProductUtil.parse_main_data`: fetch, parse; if parsing raises
`ParsingError`, re-login once and retry the fetch+parse once, any failure
of the retry propagating; finally set `product.link = link`. -/
def parse_main_data (fetch1 : Except PyErr String)
    (parseFn : String → Except PyErr ProductDTO)
    (login2 : Except PyErr Bool) (fetch2 : Except PyErr String)
    (link : String) : Except PyErr ProductDTO × ℕ × ℕ :=
  match fetch1 with
  | .error e => (.error e, 0, 0)
  | .ok html1 =>
    match parseFn html1 with
    | .ok product => (.ok { product with link := some link }, 0, 1)
    | .error e =>
      match e with
      | .parsingError _ =>
        -- `except ParsingError`: relogin and retry exactly once
        match login2 with
        | .error le => (.error le, 1, 1)
        | .ok _ =>
          match fetch2 with
          | .error fe => (.error fe, 1, 1)
          | .ok html2 =>
            match parseFn html2 with
            | .ok product => (.ok { product with link := some link }, 1, 2)
            | .error e2 => (.error e2, 1, 2)
      | _ => (.error e, 0, 1)

/-! ## Fan-out parsing (`ProductParserService.parse_products`,
`src/parser/parser/product.py` lines 53-118)

Parametric in the per-link outcome of `util.parse_item` (`TaskResult`).
`asyncio.gather(..., return_exceptions=True)` yields, in input order, each
task's value or its exception; the chunk filter keeps exactly the
`ProductDTO` results.  The embedding also counts the authenticated sessions
opened (one `LoginClient` per chunk). -/

/-- Outcome of `util.parse_item(link)` as observed through
`asyncio.gather(..., return_exceptions=True)`. -/
inductive TaskResult
  | ok (p : ProductDTO)
  | exn (e : PyErr)
  deriving DecidableEq, Repr

/-- The per-link success projection of the chunk filter: the parsed record
when the task succeeded, nothing when it raised. -/
def keepOk (outcome : String → TaskResult) (l : String) : Option ProductDTO :=
  match outcome l with
  | .ok p => some p
  | .exn _ => none

/-- Whether a gathered task result is an exception (`isinstance(result,
BaseException)` in the chunk filter). -/
def isExn : TaskResult → Bool
  | .ok _ => false
  | .exn _ => true

/-- `ProductParserService.CHUNK_SIZE`. -/
def CHUNK_SIZE : ℕ := 50

/-- `[links[i:i + CHUNK_SIZE] for i in range(0, len(links), CHUNK_SIZE)]`. -/
def chunksOf (n : ℕ) : List α → List (List α)
  | [] => []
  | x :: xs =>
    if n = 0 then []
    else (x :: xs).take n :: chunksOf n ((x :: xs).drop n)
termination_by l => l.length
decreasing_by simp only [List.length_drop, List.length_cons]; omega

/-- The body of `parse_links_chunks` after `asyncio.gather`: zip the chunk
with its results and keep exactly the successful `ProductDTO`s, skipping
exceptions (and, in the code, non-`ProductDTO` values) with a warning. -/
def parse_links_chunks (outcome : String → TaskResult) (chunk : List String) :
    List ProductDTO :=
  chunk.filterMap (fun link =>
    match outcome link with
    | .ok p => some p
    | .exn _ => none)

/-- `ProductParserService.parse_products`: empty input returns `[]` at once;
otherwise split into chunks of `CHUNK_SIZE`, process each chunk under its
own session, and flatten the chunk results in order.  The second component
counts the sessions opened (one per chunk). -/
def parse_products (outcome : String → TaskResult) (links : List String) :
    List ProductDTO × ℕ :=
  if links = [] then ([], 0)
  else
    let links_chunks := chunksOf CHUNK_SIZE links
    ((links_chunks.map (parse_links_chunks outcome)).flatten, links_chunks.length)

/-! ## Structured extraction of the detail page
(`ProductHtmlUtil`, `src/parser/html_utils/product_util.py`)

The lxml/XPath layer is external; an `ItemDoc` records what the XPath
queries of `parse_item_html` find in the fetched markup: whether the main
product table is present, the already-extracted optional scalar fields, and
the raw contents of the custom-item-specifics section (`PropRow` per table
row: the `value` attribute of the first name input, if any, and the `value`
attributes of the value inputs). -/

/-- One `<tr>` of a properties table: `nameAttr` is the raw `value`
attribute of the first `cis_ItemSpecificName_*` input (`none` when the
input or the attribute is absent), `valueAttrs` the raw `value` attributes
of the `cis_ItemSpecificValue_*` inputs in document order. -/
structure PropRow where
  nameAttr : Option String
  valueAttrs : List (Option String)
  deriving DecidableEq, Repr

/-- Abstract detail-page document, as seen by `parse_item_html`'s XPath
queries after the markup has been parsed. -/
structure ItemDoc where
  mainTablePresent : Bool
  collection : Option String := none
  product_num : Option String := none
  price : Option ℚ := none
  article : Option String := none
  pic_main : Option String := none
  pics : Option String := none
  category : Option String := none
  propsOuterDivPresent : Bool := false
  propTables : List (List PropRow) := []
  deriving DecidableEq, Repr

/-- `_extract_attribute` applied to a row's name input: strip the raw
attribute and turn an empty result into `None` (`if not name: continue`
then also skips the empty string, which `_extract_attribute` already
returned as `None`). -/
def extract_row_name (row : PropRow) : Option String :=
  match row.nameAttr with
  | none => none
  | some v => let s := pyStrip v; if s = "" then none else some s

/-- The value loop of `_extract_properties_json`: keep each present `value`
attribute whose stripped form is nonempty. -/
def extract_row_values (row : PropRow) : List String :=
  row.valueAttrs.filterMap (fun a =>
    match a with
    | none => none
    | some v => let s := pyStrip v; if s = "" then none else some s)

/-- `properties_dict[name] = properties_dict.get(name, []) + values` on an
insertion-ordered dict (Python dict semantics: an existing key keeps its
position, a new key is appended). -/
def insertProps (d : List (String × List String)) (name : String)
    (values : List String) : List (String × List String) :=
  if d.any (fun p => p.1 = name) then
    d.map (fun p => if p.1 = name then (p.1, p.2 ++ values) else p)
  else d ++ [(name, values)]

/-- Processing of one properties row: skip it when it has no (nonempty)
name or no kept values, otherwise merge its values into the dict. -/
def propRowStep (d : List (String × List String)) (row : PropRow) :
    List (String × List String) :=
  match extract_row_name row with
  | none => d
  | some name =>
    let values := extract_row_values row
    if values = [] then d else insertProps d name values

/-- JSON string escaping as performed by `json.dumps` with
`ensure_ascii=False` (backslash, quote and the common control characters). -/
def jsonEscapeChar (c : Char) : String :=
  if c = '\\' then "\\\\"
  else if c = '"' then "\\\""
  else if c = '\n' then "\\n"
  else if c = '\t' then "\\t"
  else if c = '\r' then "\\r"
  else String.singleton c

/-- A JSON string literal. -/
def jsonStr (s : String) : String :=
  "\"" ++ String.join (s.toList.map jsonEscapeChar) ++ "\""

/-- `json.dumps(values, ensure_ascii=False, indent=2)` for a list of strings
nested one level deep inside the properties object. -/
def dumpsValues (vs : List String) : String :=
  if vs = [] then "[]"
  else "[\n" ++ String.intercalate ",\n" (vs.map (fun v => "    " ++ jsonStr v))
    ++ "\n  ]"

/-- `json.dumps(properties_dict, ensure_ascii=False, indent=2)`: the
canonical serialized text form of the name → list-of-values mapping
(`"{}"` for the empty mapping). -/
def dumpsProps (m : List (String × List String)) : String :=
  if m = [] then "{}"
  else "\x7b\n" ++ String.intercalate ",\n"
    (m.map (fun p => "  " ++ jsonStr p.1 ++ ": " ++ dumpsValues p.2))
    ++ "\n\x7d"

/-- `ProductHtmlUtil._extract_properties_json` (product_util.py lines
99-133): `"{}"` when the outer div or the inner tables are missing,
otherwise the serialized dict accumulated over every row of every inner
table. -/
def extract_properties_json (outerDivPresent : Bool)
    (tables : List (List PropRow)) : String :=
  if !outerDivPresent then dumpsProps []
  else if tables = [] then dumpsProps []
  else dumpsProps (tables.foldl (fun d rows => rows.foldl propRowStep d) [])

/-- The pydantic bound on `ProductDTO.price`
(`Field(None, ge=0, le=100000)`, product/dto.py line 70): a present price
outside `[0, 100000]` makes the `ProductDTO(...)` construction raise a
validation error; an absent price is accepted. -/
def priceInBounds : Option ℚ → Bool
  | none => true
  | some p => decide (0 ≤ p) && decide (p ≤ 100000)

/-- `ProductHtmlUtil.parse_item_html` (product_util.py lines 154-219):
raises `ParsingError` when the main product table is absent; otherwise
assembles the `ProductDTO` inside the final try/except (lines 201-219),
which re-raises as `ParsingError` the validation error that the pydantic
price bound raises on an out-of-range extracted price; on success,
`properties` is always set to the serialized properties mapping. -/
def parse_item_html (doc : ItemDoc) : Except PyErr ProductDTO :=
  if doc.mainTablePresent = false then
    .error (.parsingError "Main product table not found in HTML content.")
  else if priceInBounds doc.price = false then
    .error (.parsingError "Unexpected error during data extraction: price out of pydantic bounds.")
  else
    .ok { collection := doc.collection
          product_num := doc.product_num
          price := doc.price
          properties := some (extract_properties_json doc.propsOuterDivPresent doc.propTables)
          article := doc.article
          pic_main := doc.pic_main
          pics := doc.pics
          category := doc.category }

/-! ## Concrete fixtures used to instantiate the theorems -/

/-- Catalog A group "Oak" with 3 records (spec example). -/
def oakJV : FabricDTO :=
  { id := 1, name := "Oak", afterbuy_id := "11", brand_id := 1,
    total_count := 3, parsed_count := 0, done := false }

/-- Catalog B group "oak " with 2 records (spec example). -/
def oakXL : FabricDTO :=
  { id := 2, name := "oak ", afterbuy_id := "22", brand_id := 2,
    total_count := 2, parsed_count := 0, done := false }

/-- Catalog B group "Pine" (spec example). -/
def pineXL : FabricDTO :=
  { id := 3, name := "Pine", afterbuy_id := "33", brand_id := 2,
    total_count := 2, parsed_count := 0, done := false }

/-- Attempt trace whose first attempt fails with a transient timeout and
whose later attempts succeed. -/
def timeoutThenOk : ℕ → AttemptResult :=
  fun i => if i = 0 then .err .timeoutError false else .ok "pong"

/-- Attempt trace on which every attempt times out. -/
def alwaysTimeout : ℕ → AttemptResult := fun _ => .err .timeoutError false

/-- A `parse_item_html` outcome function for which the content fetched
before re-login (`"expired"`) fails with the structural `ParsingError` and
any other content parses to the empty record. -/
def retryParseFn : String → Except PyErr ProductDTO := fun s =>
  if s = "expired" then
    Except.error (.parsingError "Main product table not found in HTML content.")
  else Except.ok {}

/-!
# Theorems
-/

/-- C2. Pagination offsets: for every non-negative total item count parsed
from the search page and positive page size, `fetch_page_count` returns the
offset list `[0, per_page, 2*per_page, ...]` whose length equals
`ceil(total/per_page)` (characterized both as the natural ceiling of the
rational quotient and by its defining bounds); `total = 0` yields the empty
offset list, and `total = 1204` with page size 500 yields
`[0, 500, 1000]`. -/
theorem fetch_page_count_pagination (total_items per_page : ℕ) (hp : 0 < per_page) :
    (fetch_page_count total_items per_page).1.length
      = ⌈(total_items : ℚ) / (per_page : ℚ)⌉₊ ∧
    total_items ≤ (fetch_page_count total_items per_page).1.length * per_page ∧
    (0 < total_items →
      ((fetch_page_count total_items per_page).1.length - 1) * per_page < total_items) ∧
    (∀ i (hi : i < (fetch_page_count total_items per_page).1.length),
      (fetch_page_count total_items per_page).1.get ⟨i, hi⟩ = i * per_page) ∧
    (fetch_page_count 0 per_page).1 = [] ∧
    (fetch_page_count 1204 500).1 = [0, 500, 1000] := by
  have hppQ : (0 : ℚ) < per_page := by exact_mod_cast hp
  have hlen : (fetch_page_count total_items per_page).1.length
      = ⌈(total_items : ℚ) / (per_page : ℚ)⌉₊ := by
    simp [fetch_page_count]
  refine ⟨hlen, ?_, ?_, ?_, ?_, ?_⟩
  · rw [hlen]
    have hq := Nat.le_ceil ((total_items : ℚ) / (per_page : ℚ))
    rw [div_le_iff₀ hppQ] at hq
    exact_mod_cast hq
  · intro ht
    rw [hlen]
    have hpos : 0 < ⌈(total_items : ℚ) / (per_page : ℚ)⌉₊ :=
      Nat.ceil_pos.mpr (div_pos (by exact_mod_cast ht) hppQ)
    have hlt := Nat.lt_ceil.mp (Nat.sub_lt hpos one_pos)
    rw [lt_div_iff₀ hppQ] at hlt
    exact_mod_cast hlt
  · intro i hi
    simp [fetch_page_count]
  · simp [fetch_page_count]
  · have hc : ⌈(1204 : ℚ) / (500 : ℚ)⌉₊ = 3 := by
      rw [Nat.ceil_eq_iff (by norm_num)]; norm_num
    show (List.range ⌈(1204 : ℚ) / (500 : ℚ)⌉₊).map (fun i => i * 500) = [0, 500, 1000]
    rw [hc]
    decide

/-- Witness for C2 at `total = 1204`, `per_page = 500`. -/
theorem fetch_page_count_pagination_witness :
    0 < 500 ∧ (fetch_page_count 1204 500).1 = [0, 500, 1000] :=
  ⟨by norm_num, (fetch_page_count_pagination 1204 500 (by norm_num)).2.2.2.2.2⟩

/-- C8. Per-field dissimilarity normalization: whenever the two optional
inputs normalize to the same string under None-to-empty conversion and
lowercasing, `calculate_string_difference` returns exactly `0` for every
choice of the external similarity routine (so the routine is never
consulted); in particular `dissimilarity(s, s) = 0` for every string `s`
and `dissimilarity(None, "") = 0`. -/
theorem calculate_string_difference_normalized_zero (s1 s2 : Option String)
    (h : pyLower (s1.getD "") = pyLower (s2.getD "")) :
    (∀ ratio : String → String → ℕ, calculate_string_difference ratio s1 s2 = 0) ∧
    (∀ (ratio : String → String → ℕ) (s : String),
      calculate_string_difference ratio (some s) (some s) = 0) ∧
    (∀ ratio : String → String → ℕ,
      calculate_string_difference ratio none (some "") = 0) := by
  refine ⟨fun ratio => ?_, fun ratio s => ?_, fun ratio => ?_⟩
  · simp [calculate_string_difference, h]
  · simp [calculate_string_difference]
  · simp [calculate_string_difference]

/-- Witness for C8 at `s1 = some "FOO"`, `s2 = some "foo"`, with a
similarity routine that would return 37 were it consulted. -/
theorem calculate_string_difference_normalized_zero_witness :
    pyLower ((some "FOO").getD "") = pyLower ((some "foo").getD "") ∧
    calculate_string_difference (fun _ _ => 37) (some "FOO") (some "foo") = 0 :=
  ⟨by decide,
    (calculate_string_difference_normalized_zero (some "FOO") (some "foo")
      (by decide)).1 (fun _ _ => 37)⟩

/-- C7. Coarse grouping (phase 1): a coarse mapping pair is recorded by
`map_fabrics` for an A-side and a B-side fabric if and only if their names
are equal after trimming whitespace and lowercasing and both have a
positive record count; "Oak" (3 records) pairs with "oak " (2 records),
while "Oak" never pairs with "Pine". -/
theorem map_fabrics_coarse_grouping :
    (∀ (js xs : List FabricDTO) (m : CreateFabricMappingDTO),
      m ∈ map_fabrics js xs ↔
        ∃ f ∈ js, ∃ x ∈ xs,
          pyLower (pyStrip f.name) = pyLower (pyStrip x.name) ∧
          0 < f.total_count ∧ 0 < x.total_count ∧
          m = ⟨f.id, x.id⟩) ∧
    map_fabrics [oakJV] [oakXL] = [⟨1, 2⟩] ∧
    map_fabrics [oakJV] [pineXL] = [] := by
  refine ⟨?_, by decide, by decide⟩
  intro js xs m
  constructor
  · intro hm
    simp only [map_fabrics, List.mem_flatMap, List.mem_filterMap] at hm
    obtain ⟨f, hf, x, hx, hcond⟩ := hm
    refine ⟨f, hf, x, hx, ?_⟩
    split at hcond
    · rename_i hc
      exact ⟨hc.1, hc.2.1, hc.2.2, (Option.some_inj.mp hcond).symm⟩
    · exact absurd hcond (by simp)
  · rintro ⟨f, hf, x, hx, hname, hfc, hxc, rfl⟩
    simp only [map_fabrics, List.mem_flatMap, List.mem_filterMap]
    exact ⟨f, hf, x, hx, by rw [if_pos ⟨hname, hfc, hxc⟩]⟩

/-- C5. Login verification: `check_login_status` returns `False` iff the
fetched page's title equals the known login-page title
"Afterbuy - Benutzer-Login" and `True` for any other title; when `login()`
returns `False`, `get_session` raises `LoginFailedError` and never returns
a client. -/
theorem check_login_status_title_equiv :
    (∀ t : String,
      check_login_status (Except.ok t) = Except.ok false
        ↔ t = "Afterbuy - Benutzer-Login") ∧
    (∀ t : String,
      check_login_status (Except.ok t) = Except.ok true
        ↔ t ≠ "Afterbuy - Benutzer-Login") ∧
    (∀ self : LoginClientHandle,
      get_session self (Except.ok false)
        = Except.error (PyErr.loginFailedError "Failed to complete login process.") ∧
      ∀ c : LoginClientHandle, get_session self (Except.ok false) ≠ Except.ok c) := by
  refine ⟨fun t => ?_, fun t => ?_, fun s => ⟨rfl, fun c h => by cases h⟩⟩ <;>
    simp [check_login_status, LOGIN_PAGE_TITLE, bne]

/-- Witness for C5: the login-page title itself yields `False`, another
title yields `True`, and `get_session` on a failed login is the
`LoginFailedError`. -/
theorem check_login_status_title_equiv_witness :
    check_login_status (Except.ok "Afterbuy - Benutzer-Login") = Except.ok false ∧
    check_login_status (Except.ok "Afterbuy - Produkte") = Except.ok true ∧
    get_session ⟨"https://farm01.afterbuy.de"⟩ (Except.ok false)
      = Except.error (PyErr.loginFailedError "Failed to complete login process.") :=
  ⟨(check_login_status_title_equiv.1 "Afterbuy - Benutzer-Login").mpr rfl,
   (check_login_status_title_equiv.2.1 "Afterbuy - Produkte").mpr (by decide),
   (check_login_status_title_equiv.2.2 ⟨"https://farm01.afterbuy.de"⟩).1⟩

theorem chunksOf_flatten {α : Type} (n : ℕ) (hn : n ≠ 0) :
    ∀ l : List α, (chunksOf n l).flatten = l := by
  have key : ∀ (len : ℕ) (l : List α), l.length ≤ len → (chunksOf n l).flatten = l := by
    intro len
    induction len with
    | zero =>
      intro l hl
      rw [List.length_eq_zero.mp (Nat.le_zero.mp hl)]
      simp [chunksOf]
    | succ k ih =>
      intro l hl
      cases l with
      | nil => simp [chunksOf]
      | cons x xs =>
        simp only [chunksOf, if_neg hn, List.flatten_cons]
        have hdrop : ((x :: xs).drop n).length ≤ k := by
          simp only [List.length_drop, List.length_cons]
          simp only [List.length_cons] at hl
          omega
        rw [ih _ hdrop]
        exact List.take_append_drop n (x :: xs)
  exact fun l => key l.length l le_rfl

theorem parse_links_chunks_eq (outcome : String → TaskResult)
    (chunk : List String) :
    parse_links_chunks outcome chunk = chunk.filterMap (keepOk outcome) := rfl

theorem map_parse_links_chunks_flatten (outcome : String → TaskResult) :
    ∀ chunks : List (List String),
      (chunks.map (parse_links_chunks outcome)).flatten
        = chunks.flatten.filterMap (keepOk outcome) := by
  intro chunks
  induction chunks with
  | nil => simp
  | cons c cs ih =>
    simp only [List.map_cons, List.flatten_cons, List.filterMap_append, ih]
    rfl

theorem parse_products_fst (outcome : String → TaskResult) (links : List String) :
    (parse_products outcome links).1 = links.filterMap (keepOk outcome) := by
  by_cases h : links = []
  · simp [parse_products, h]
  · rw [parse_products, if_neg h]
    show ((chunksOf CHUNK_SIZE links).map (parse_links_chunks outcome)).flatten = _
    rw [map_parse_links_chunks_flatten, chunksOf_flatten CHUNK_SIZE (by decide)]

theorem length_filterMap_keepOk (outcome : String → TaskResult) :
    ∀ l : List String,
      (l.filterMap (keepOk outcome)).length
        = l.length - l.countP (fun l' => isExn (outcome l')) := by
  intro l
  induction l with
  | nil => rfl
  | cons x xs ih =>
    have hle : xs.countP (fun l' => isExn (outcome l')) ≤ xs.length :=
      List.countP_le_length _
    cases hx : outcome x with
    | ok p =>
      have hkeep : keepOk outcome x = some p := by simp [keepOk, hx]
      have hisx : isExn (outcome x) = false := by rw [hx]; rfl
      simp [List.filterMap_cons, hkeep, List.countP_cons, hisx, ih]
      omega
    | exn e =>
      have hkeep : keepOk outcome x = none := by simp [keepOk, hx]
      have hisx : isExn (outcome x) = true := by rw [hx]; rfl
      simp [List.filterMap_cons, hkeep, List.countP_cons, hisx, ih]

/-- C3. Fan-out per-item failure tolerance: `parse_products` on the empty
link list returns the empty list having opened no session; for every chunk
the chunk result keeps exactly the successfully parsed records (its size is
the chunk size minus the number of failing links); and the overall output
size equals the input size minus the number of failing links — one failing
link never loses another link's result. -/
theorem parse_products_failure_tolerance (outcome : String → TaskResult)
    (links : List String) :
    parse_products outcome [] = ([], 0) ∧
    (∀ chunk : List String,
      (parse_links_chunks outcome chunk).length
        = chunk.length - chunk.countP (fun l => isExn (outcome l))) ∧
    (parse_products outcome links).1.length
      = links.length - links.countP (fun l => isExn (outcome l)) := by
  refine ⟨rfl, fun chunk => ?_, ?_⟩
  · rw [parse_links_chunks_eq]
    exact length_filterMap_keepOk outcome chunk
  · rw [parse_products_fst]
    exact length_filterMap_keepOk outcome links

/-- C10. Output order preservation in fan-out parsing: within a chunk the
results appear in link order, and the whole output of `parse_products`
lists the successfully parsed records in the same relative order as their
links appear in the input (chunks concatenated in input order), i.e. it is
the input list filter-mapped by the per-link outcome. -/
theorem parse_products_order_preservation (outcome : String → TaskResult)
    (links : List String) :
    (∀ chunk : List String,
      parse_links_chunks outcome chunk = chunk.filterMap (keepOk outcome)) ∧
    (parse_products outcome links).1 = links.filterMap (keepOk outcome) :=
  ⟨parse_links_chunks_eq outcome, parse_products_fst outcome links⟩

/-- C6. Session-expiry retry: `parse_main_data` never performs more than
one re-login or more than two extraction attempts; an item whose first
extraction succeeds is returned with zero re-logins; a first extraction
failing with the structural `ParsingError` triggers exactly one re-login
and exactly one fetch-and-extract retry whose failure (or success)
propagates; and a first extraction failing with any other error class is
propagated with no re-login at all. -/
theorem parse_main_data_session_expiry_retry
    (fetch1 fetch2 : Except PyErr String)
    (parseFn : String → Except PyErr ProductDTO)
    (login2 : Except PyErr Bool) (link : String) :
    ((parse_main_data fetch1 parseFn login2 fetch2 link).2.1 ≤ 1 ∧
     (parse_main_data fetch1 parseFn login2 fetch2 link).2.2 ≤ 2) ∧
    (∀ html1 p, fetch1 = Except.ok html1 → parseFn html1 = Except.ok p →
      parse_main_data fetch1 parseFn login2 fetch2 link
        = (Except.ok { p with link := some link }, 0, 1)) ∧
    (∀ html1 msg, fetch1 = Except.ok html1 →
        parseFn html1 = Except.error (PyErr.parsingError msg) →
      (parse_main_data fetch1 parseFn login2 fetch2 link).2.1 = 1 ∧
      (∀ lb html2 e2, login2 = Except.ok lb → fetch2 = Except.ok html2 →
          parseFn html2 = Except.error e2 →
        parse_main_data fetch1 parseFn login2 fetch2 link
          = (Except.error e2, 1, 2)) ∧
      (∀ lb html2 p, login2 = Except.ok lb → fetch2 = Except.ok html2 →
          parseFn html2 = Except.ok p →
        parse_main_data fetch1 parseFn login2 fetch2 link
          = (Except.ok { p with link := some link }, 1, 2)) ∧
      (∀ le, login2 = Except.error le →
        parse_main_data fetch1 parseFn login2 fetch2 link
          = (Except.error le, 1, 1))) ∧
    (∀ html1 e, fetch1 = Except.ok html1 → parseFn html1 = Except.error e →
        (∀ msg, e ≠ PyErr.parsingError msg) →
      parse_main_data fetch1 parseFn login2 fetch2 link
        = (Except.error e, 0, 1)) := by
  refine ⟨?_, ?_, ?_, ?_⟩
  · unfold parse_main_data
    constructor
    all_goals repeat' split
    all_goals simp
  · intro html1 p h1 hp
    subst h1
    simp [parse_main_data, hp]
  · intro html1 msg h1 hp
    subst h1
    refine ⟨?_, ?_, ?_, ?_⟩
    · simp only [parse_main_data, hp]
      repeat' split
      all_goals simp
    · intro lb html2 e2 hl h2 hp2
      subst hl; subst h2
      simp [parse_main_data, hp, hp2]
    · intro lb html2 p hl h2 hp2
      subst hl; subst h2
      simp [parse_main_data, hp, hp2]
    · intro le hl
      subst hl
      simp [parse_main_data, hp]
  · intro html1 e h1 hp hne
    subst h1
    cases e with
    | parsingError msg => exact absurd rfl (hne msg)
    | _ => simp [parse_main_data, hp]

/-- Witness for C6: a first fetch returning expired content whose
extraction raises `ParsingError`, followed by one re-login and one
successful retry. -/
theorem parse_main_data_session_expiry_retry_witness :
    parse_main_data (Except.ok "expired") retryParseFn (Except.ok true)
        (Except.ok "fresh") "L"
      = (Except.ok { ({} : ProductDTO) with link := some "L" }, 1, 2) := by
  have h := (parse_main_data_session_expiry_retry (Except.ok "expired")
    (Except.ok "fresh") retryParseFn (Except.ok true) "L").2.2.1 "expired"
    "Main product table not found in HTML content." rfl rfl
  exact h.2.2.1 true "fresh" {} rfl rfl rfl

theorem extract_properties_json_eq_dumps (b : Bool) (ts : List (List PropRow)) :
    ∃ m, extract_properties_json b ts = dumpsProps m := by
  unfold extract_properties_json
  split
  · exact ⟨[], rfl⟩
  · split
    · exact ⟨[], rfl⟩
    · exact ⟨_, rfl⟩

theorem foldl_propRowStep_all_empty (d0 : List (String × List String)) :
    ∀ ts : List (List PropRow), (∀ rows ∈ ts, rows = []) →
      ts.foldl (fun d rows => rows.foldl propRowStep d) d0 = d0 := by
  intro ts
  induction ts generalizing d0 with
  | nil => intro _; rfl
  | cons r rs ih =>
    intro hall
    have hr : r = [] := hall r (List.mem_cons_self r rs)
    subst hr
    exact ih d0 (fun rows hrows => hall rows (List.mem_cons_of_mem _ hrows))

/-- C9. Properties serialization: for every detail-page document in which
the main product table is present and the extracted price satisfies the
pydantic bound (so that record construction does not raise),
`parse_item_html` succeeds and its record's `properties` field is the
canonical serialization of a name-to-list-of-values mapping — never
`None` — and it is the serialized empty mapping `"{}"` whenever the
properties section is absent, has no inner tables, or has no rows. -/
theorem parse_item_html_properties_serialized (doc : ItemDoc)
    (h : doc.mainTablePresent = true)
    (hp : priceInBounds doc.price = true) :
    ∃ dto, parse_item_html doc = Except.ok dto ∧
      dto.properties
        = some (extract_properties_json doc.propsOuterDivPresent doc.propTables) ∧
      (∃ m, dto.properties = some (dumpsProps m)) ∧
      ((doc.propsOuterDivPresent = false ∨ doc.propTables = []
          ∨ ∀ rows ∈ doc.propTables, rows = []) →
        dto.properties = some "{}") := by
  refine ⟨{ collection := doc.collection, product_num := doc.product_num,
            price := doc.price,
            properties := some (extract_properties_json doc.propsOuterDivPresent
              doc.propTables),
            article := doc.article, pic_main := doc.pic_main, pics := doc.pics,
            category := doc.category },
          by simp [parse_item_html, h, hp], rfl, ?_, ?_⟩
  · obtain ⟨m, hm⟩ :=
      extract_properties_json_eq_dumps doc.propsOuterDivPresent doc.propTables
    exact ⟨m, by rw [hm]⟩
  · intro hempty
    rcases hempty with hout | htab | hrows
    · simp [extract_properties_json, hout, dumpsProps]
    · simp [extract_properties_json, htab, dumpsProps]
    · unfold extract_properties_json
      split
      · rfl
      · split
        · rfl
        · rw [foldl_propRowStep_all_empty [] doc.propTables hrows]
          rfl

/-- Witness for C9: a page with the main table present, an in-bounds
(absent) price and no properties section serializes to the empty
mapping. -/
theorem parse_item_html_properties_serialized_witness :
    ∃ dto, parse_item_html { mainTablePresent := true } = Except.ok dto ∧
      dto.properties = some "{}" := by
  obtain ⟨dto, h1, _, _, h4⟩ :=
    parse_item_html_properties_serialized { mainTablePresent := true } rfl rfl
  exact ⟨dto, h1, h4 (Or.inl rfl)⟩

theorem html_request_loop_all_fail (att : ℕ → AttemptResult) (jitter : ℕ → ℚ) :
    ∀ (fuel i : ℕ),
      (∀ j, i ≤ j → j < i + fuel → isRetryableFailure (att j) = true) →
      html_request_loop att jitter fuel i
        = (none, ((List.range' i fuel).map (attemptActs att jitter)).flatten) := by
  intro fuel
  induction fuel with
  | zero => intro i _; rfl
  | succ k ih =>
    intro i h
    have hi : isRetryableFailure (att i) = true := h i le_rfl (by omega)
    cases ha : att i with
    | ok body => simp [isRetryableFailure, ha] at hi
    | err e closed =>
      have hre : retryableErr e = true := by simpa [isRetryableFailure, ha] using hi
      have hrec := ih (i + 1) (fun j hj1 hj2 => h j (by omega) (by omega))
      simp only [html_request_loop, ha, hre, if_true, hrec, List.range'_succ,
        List.map_cons, List.flatten_cons, attemptActs]

theorem html_request_loop_first_ok (att : ℕ → AttemptResult) (jitter : ℕ → ℚ) :
    ∀ (k fuel i : ℕ) (b : String), k < fuel →
      (∀ j, i ≤ j → j < i + k → isRetryableFailure (att j) = true) →
      att (i + k) = .ok b →
      (html_request_loop att jitter fuel i).1 = some (.ok b) := by
  intro k
  induction k with
  | zero =>
    intro fuel i b hk _ hab
    obtain ⟨m, rfl⟩ := Nat.exists_eq_succ_of_ne_zero (Nat.pos_iff_ne_zero.mp hk)
    rw [Nat.add_zero] at hab
    simp [html_request_loop, hab]
  | succ n ihn =>
    intro fuel i b hk h hab
    obtain ⟨m, rfl⟩ := Nat.exists_eq_succ_of_ne_zero (Nat.not_eq_zero_of_lt hk)
    have hi : isRetryableFailure (att i) = true := h i le_rfl (by omega)
    cases ha : att i with
    | ok body => simp [isRetryableFailure, ha] at hi
    | err e closed =>
      have hre : retryableErr e = true := by simpa [isRetryableFailure, ha] using hi
      have hrec := ihn m (i + 1) b (by omega)
        (fun j hj1 hj2 => h j (by omega) (by omega))
        (by rw [show i + 1 + n = i + (n + 1) by omega]; exact hab)
      simp only [html_request_loop, ha, hre, if_true]
      exact hrec

/-- C4 counterexample (to the claim as frozen): a first attempt that fails
with a transient timeout and a second attempt that would succeed.  A client
whose JSON-decoded path retried transient failures would return the second
attempt's value; `json_request` instead propagates the first attempt's
error, while `html_request` on the same trace retries and succeeds. -/
theorem json_request_no_retry_counterexample :
    json_request timeoutThenOk = Except.error PyErr.timeoutError ∧
    (html_request timeoutThenOk (fun _ => 0)).1 = Except.ok "pong" :=
  ⟨rfl, rfl⟩

/-- C4 (amended). Retry policy of the session client: the text-decoded path
`html_request` returns the first success among its 5 loop attempts (each
failed retryable attempt sleeping `min(60, 2^attempt + jitter)` and
recreating the session when the error is a `RuntimeError` or the session is
closed); when all 5 loop attempts fail with retryable errors it recreates
the session, sleeps the 300-second cooldown, and performs exactly one final
attempt whose outcome — success or failure — is the caller's result.  The
JSON-decoded path `json_request` performs a single attempt with no retry,
propagating its failure immediately. -/
theorem http_client_retry_policy (att : ℕ → AttemptResult) (jitter : ℕ → ℚ) :
    json_request att = attemptToExcept (att 0) ∧
    (∀ k b, k < 5 → (∀ j, j < k → isRetryableFailure (att j) = true) →
      att k = .ok b → (html_request att jitter).1 = Except.ok b) ∧
    ((∀ j, j < 5 → isRetryableFailure (att j) = true) →
      html_request att jitter
        = (attemptToExcept (att 5),
            ((List.range 5).map (attemptActs att jitter)).flatten
              ++ [ClientAction.recreate, ClientAction.sleep (5 * 60)])) ∧
    (∀ i e closed, att i = .err e closed →
      attemptActs att jitter i
        = (if recreateCond e closed then [ClientAction.recreate] else [])
            ++ [ClientAction.sleep (min 60 ((2 : ℚ) ^ i + jitter i))]) := by
  refine ⟨rfl, ?_, ?_, ?_⟩
  · intro k b hk h hab
    have hl := html_request_loop_first_ok att jitter k 5 0 b hk
      (fun j hj1 hj2 => h j (by omega)) (by simpa using hab)
    rcases hrun : html_request_loop att jitter 5 0 with ⟨r1, r2⟩
    rw [hrun] at hl
    simp only at hl
    subst hl
    unfold html_request
    rw [hrun]
  · intro h
    have hl := html_request_loop_all_fail att jitter 5 0
      (fun j hj1 hj2 => h j (by omega))
    unfold html_request
    rw [hl, List.range_eq_range']
  · intro i e closed ha
    simp [attemptActs, ha]

/-- Witness for C4 (amended): on a trace where every attempt times out, the
client's result is the final attempt's propagated timeout error. -/
theorem http_client_retry_policy_witness :
    (html_request alwaysTimeout (fun _ => 0)).1 = Except.error PyErr.timeoutError := by
  have h := (http_client_retry_policy alwaysTimeout (fun _ => 0)).2.2.1
    (fun j _ => rfl)
  rw [h]
  rfl

theorem foldl_bestStep_char (ratio : String → String → ℕ) (dto1 : ProductDTO) :
    ∀ (xs : List ProductDTO) (b0 : ProductDTO) (m0 : ℚ),
      ∃ b m, xs.foldl (bestStep ratio dto1) (some b0, some m0) = (some b, some m) ∧
        m ≤ m0 ∧
        (∀ x ∈ xs, m ≤ calculate_dto_pair_weighted_difference ratio dto1 x) ∧
        ((b = b0 ∧ m = m0 ∧
            ∀ x ∈ xs, m0 ≤ calculate_dto_pair_weighted_difference ratio dto1 x)
          ∨ (∃ i, ∃ hi : i < xs.length, b = xs.get ⟨i, hi⟩ ∧
              m = calculate_dto_pair_weighted_difference ratio dto1 b ∧ m < m0 ∧
              ∀ j, ∀ hj : j < i,
                m < calculate_dto_pair_weighted_difference ratio dto1
                  (xs.get ⟨j, Nat.lt_trans hj hi⟩))) := by
  intro xs
  induction xs with
  | nil =>
    intro b0 m0
    exact ⟨b0, m0, rfl, le_rfl, by simp, Or.inl ⟨rfl, rfl, by simp⟩⟩
  | cons x xs ih =>
    intro b0 m0
    rw [List.foldl_cons]
    by_cases hδ : calculate_dto_pair_weighted_difference ratio dto1 x < m0
    · rw [show bestStep ratio dto1 (some b0, some m0) x
          = (some x, some (calculate_dto_pair_weighted_difference ratio dto1 x)) from by
        simp [bestStep, hδ]]
      obtain ⟨b, m, hfold, hle, hall, hcase⟩ :=
        ih x (calculate_dto_pair_weighted_difference ratio dto1 x)
      refine ⟨b, m, hfold, le_of_lt (lt_of_le_of_lt hle hδ), ?_, ?_⟩
      · intro y hy
        rcases List.mem_cons.mp hy with rfl | hy
        · exact hle
        · exact hall y hy
      · rcases hcase with ⟨hb, hm, _⟩ | ⟨i, hi, hb, hm, hlt, hfirst⟩
        · right
          refine ⟨0, by simp, by simpa using hb, ?_, by rw [hm]; exact hδ, ?_⟩
          · rw [hm, hb]
          · intro j hj
            omega
        · right
          refine ⟨i + 1, by simpa using Nat.succ_lt_succ hi, by simpa using hb, hm,
            lt_trans hlt hδ, ?_⟩
          intro j hj
          cases j with
          | zero => simpa using hlt
          | succ j' => simpa using hfirst j' (Nat.succ_lt_succ_iff.mp hj)
    · push_neg at hδ
      rw [show bestStep ratio dto1 (some b0, some m0) x = (some b0, some m0) from by
        simp [bestStep, not_lt.mpr hδ]]
      obtain ⟨b, m, hfold, hle, hall, hcase⟩ := ih b0 m0
      refine ⟨b, m, hfold, hle, ?_, ?_⟩
      · intro y hy
        rcases List.mem_cons.mp hy with rfl | hy
        · exact le_trans hle hδ
        · exact hall y hy
      · rcases hcase with ⟨hb, hm, hbound⟩ | ⟨i, hi, hb, hm, hlt, hfirst⟩
        · left
          refine ⟨hb, hm, ?_⟩
          intro y hy
          rcases List.mem_cons.mp hy with rfl | hy
          · exact hδ
          · exact hbound y hy
        · right
          refine ⟨i + 1, by simpa using Nat.succ_lt_succ hi, by simpa using hb, hm,
            hlt, ?_⟩
          intro j hj
          cases j with
          | zero => simpa using lt_of_lt_of_le hlt hδ
          | succ j' => simpa using hfirst j' (Nat.succ_lt_succ_iff.mp hj)

/-- C1. Phase-2 record matching for a coarse-mapped group pair and an
A-side record `dto1`: the total dissimilarity against a B-side record is
the sum over the five fields properties/pic_main/article/category/pics of
the per-field string difference times the weights
0.40/0.25/0.20/0.10/0.05 (summing to 1.0); against a nonempty B side, the
scan selects a B record `b` with the minimum total dissimilarity `m`,
every earlier B record having a strictly larger dissimilarity (first-seen
tie-break), and a product mapping for `dto1` is created iff
`m ≤ MAX_DIFFERENCE_THRESHOLD = 0.4`. -/
theorem map_products_record_matching (ratio : String → String → ℕ)
    (fabric_mapping_id : Int) (dto1 : ProductDTO)
    (x_products : List ProductDTO) (hne : x_products ≠ []) :
    (FIELD_WEIGHTS MatchField.properties = 40/100 ∧
     FIELD_WEIGHTS MatchField.pic_main = 25/100 ∧
     FIELD_WEIGHTS MatchField.article = 20/100 ∧
     FIELD_WEIGHTS MatchField.category = 10/100 ∧
     FIELD_WEIGHTS MatchField.pics = 5/100 ∧
     (MATCHING_FIELDS.map FIELD_WEIGHTS).sum = 1) ∧
    (∀ d2 : ProductDTO,
      calculate_dto_pair_weighted_difference ratio dto1 d2
        = calculate_string_difference ratio dto1.properties d2.properties * (40/100)
          + calculate_string_difference ratio dto1.pic_main d2.pic_main * (25/100)
          + calculate_string_difference ratio dto1.article d2.article * (20/100)
          + calculate_string_difference ratio dto1.category d2.category * (10/100)
          + calculate_string_difference ratio dto1.pics d2.pics * (5/100)) ∧
    (∀ j_products : List ProductDTO,
      map_products_pair ratio fabric_mapping_id j_products x_products
        = j_products.filterMap (matchFor ratio fabric_mapping_id x_products)) ∧
    (∃ b m, ∃ i, ∃ hi : i < x_products.length,
      findBest ratio dto1 x_products = (some b, some m) ∧
      x_products.get ⟨i, hi⟩ = b ∧
      m = calculate_dto_pair_weighted_difference ratio dto1 b ∧
      (∀ x ∈ x_products, m ≤ calculate_dto_pair_weighted_difference ratio dto1 x) ∧
      (∀ j, ∀ hj : j < i,
        m < calculate_dto_pair_weighted_difference ratio dto1
          (x_products.get ⟨j, Nat.lt_trans hj hi⟩)) ∧
      matchFor ratio fabric_mapping_id x_products dto1
        = if m ≤ MAX_DIFFERENCE_THRESHOLD
          then some ⟨fabric_mapping_id, b.id, dto1.id⟩ else none) := by
  refine ⟨⟨rfl, rfl, rfl, rfl, rfl, by norm_num [MATCHING_FIELDS, FIELD_WEIGHTS]⟩,
    ?_, fun _ => rfl, ?_⟩
  · intro d2
    simp only [calculate_dto_pair_weighted_difference, MATCHING_FIELDS, FIELD_WEIGHTS,
      fieldGet, List.foldl_cons, List.foldl_nil]
    ring
  · cases x_products with
    | nil => exact absurd rfl hne
    | cons x xs =>
      obtain ⟨b, m, hfold, hle, hall, hcase⟩ :=
        foldl_bestStep_char ratio dto1 xs x
          (calculate_dto_pair_weighted_difference ratio dto1 x)
      have hfb : findBest ratio dto1 (x :: xs) = (some b, some m) := by
        rw [findBest, List.foldl_cons]
        exact hfold
      have hmatch : matchFor ratio fabric_mapping_id (x :: xs) dto1
          = if m ≤ MAX_DIFFERENCE_THRESHOLD
            then some ⟨fabric_mapping_id, b.id, dto1.id⟩ else none := by
        rw [matchFor, hfb]
      rcases hcase with ⟨hb, hm, hbound⟩ | ⟨i, hi, hb, hm, hlt, hfirst⟩
      · refine ⟨b, m, 0, by simp, hfb, by simpa using hb.symm, by rw [hm, hb], ?_,
          fun j hj => absurd hj (by omega), hmatch⟩
        intro y hy
        rcases List.mem_cons.mp hy with rfl | hy
        · rw [hm]
        · exact le_trans (hm.le) (hbound y hy)
      · refine ⟨b, m, i + 1, by simpa using Nat.succ_lt_succ hi, hfb,
          by simpa using hb.symm, hm, ?_, ?_, hmatch⟩
        · intro y hy
          rcases List.mem_cons.mp hy with rfl | hy
          · exact le_of_lt hlt
          · exact hall y hy
        · intro j hj
          cases j with
          | zero => simpa using hlt
          | succ j' => simpa using hfirst j' (Nat.succ_lt_succ_iff.mp hj)

/-- Witness for C1 at a concrete one-element B side: the nonemptiness
hypothesis holds and the theorem yields the unit weight sum. -/
theorem map_products_record_matching_witness :
    ([{ id := some 2, article := some "X-100", properties := some "{}" }]
      ≠ ([] : List ProductDTO)) ∧
    (MATCHING_FIELDS.map FIELD_WEIGHTS).sum = 1 :=
  ⟨by simp,
    (map_products_record_matching (fun _ _ => 0) 7
      { id := some 1, article := some "X-100", properties := some "{}" }
      [{ id := some 2, article := some "X-100", properties := some "{}" }]
      (by simp)).1.2.2.2.2.2⟩

end Afterbuy
